import Mathlib

/-!
Verification of the FDA-NDC / RxNorm record-linkage engine.

This file gives a shallow embedding, in Lean 4, of the core functions of the
repository (src/src/agent.py, src/src/rxnorm_client.py, src/src/models.py)
and proves the spec's claims about them.

Modelling conventions, used throughout and noted again at each definition:
  * Python floats are modelled as rationals (ℚ); the score constants 0.5,
    0.3, 0.2 and the clamp min(·, 1.0) are exact in both models, and every
    quantity the claims mention (0.0, 0.8, 0.9, 1.0) is reached by exact
    float arithmetic in the source as well.
  * Python `str.lower()` is modelled by mapping `Char.toLower` over the
    characters (the names involved are ASCII), and the substring operator
    `a in b` by an executable contiguous-sublist test on character lists.
  * Python truthiness is modelled explicitly: an optional string is truthy
    exactly when it is `some s` with `s ≠ ""`; a list is truthy exactly when
    it is non-empty; a `dict.get` of an absent-or-empty nested object is
    collapsed to the empty/none case, since the source only ever tests such
    objects for truthiness.
  * Network effects are modelled by passing the remote service's behaviour
    in as explicit data (an oracle giving the outcome of each HTTP attempt,
    or the already-parsed responses); exceptions are modelled with `Except`
    or `Option` at exactly the points the source raises or catches them.
  * Wall-clock fields (`match_date`, `last_updated`, pydantic default
    timestamps) are omitted: no claim mentions them.
-/

/-! ## String helpers: Python `str.lower()` and the substring operator -/

/-- Executable test that the first character list is a prefix of the second. -/
def isPrefixB : List Char → List Char → Bool
  | [], _ => true
  | _ :: _, [] => false
  | a :: as, b :: bs => a = b && isPrefixB as bs

/-- Executable test that the first character list occurs contiguously inside
the second: Lean model of Python's substring operator `needle in hay`. -/
def isSubChars : List Char → List Char → Bool
  | n, [] => isPrefixB n []
  | n, c :: t => isPrefixB n (c :: t) || isSubChars n t

/-- Model of Python `s.lower()` (ASCII), as a character list. -/
def lowerChars (s : String) : List Char := s.data.map Char.toLower

/-- Truthiness of a Python optional string: present and non-empty. -/
def strTruthy : Option String → Bool
  | some s => s ≠ ""
  | none => false

/-- Python `a or b` on an optional string with a string fallback:
the string value when truthy, the fallback otherwise. -/
def pyStrOr (a : Option String) (b : String) : String :=
  match a with
  | some s => if s = "" then b else s
  | none => b

/-! ## Data model (src/src/models.py)

Only the fields the embedded functions read are carried; all of them keep
the source's names and optionality. -/

/-- NDCProduct (models.py lines 10-40), restricted to the fields the core
reads: the scorer reads `proprietary_name` and `substance_name`, the
clinical projection additionally reads the identifying/descriptive fields. -/
structure NDCProduct where
  product_ndc : String
  proprietary_name : Option String
  non_proprietary_name : Option String
  dosage_form_name : Option String
  route_name : Option String
  substance_name : Option String
  strength_number : Option String
  strength_unit : Option String
deriving Repr, DecidableEq

/-- RxNormConcept (models.py lines 43-52). -/
structure RxNormConcept where
  rxcui : String
  name : String
  synonym : Option String
  tty : String
  language : String
  suppress : String
  umlscui : Option String
deriving Repr, DecidableEq

/-- RxNormIngredient (models.py lines 55-60). -/
structure RxNormIngredient where
  rxcui : String
  name : String
  base_names : Option (List String)
deriving Repr, DecidableEq

/-- RxNormDrug (models.py lines 63-71). -/
structure RxNormDrug where
  rxcui : String
  name : String
  synonym : Option String
  tty : String
  base_names : Option (List String)
  ingredients : Option (List RxNormIngredient)
deriving Repr, DecidableEq

/-- One drug-interaction record as built by
RxNormClient.get_drug_interactions (rxnorm_client.py lines 273-278). The
participant list is kept abstract as the participants' rxcui strings. -/
structure InteractionRecord where
  severity : Option String
  description : Option String
  interaction_type : Option String
  drugs : List String
deriving Repr, DecidableEq

/-- One drug-class record as built by RxNormClient.get_drug_classes
(rxnorm_client.py lines 305-309): each field is `concept.get(...)`, so each
may be absent. -/
structure DrugClassRecord where
  class_type : Option String
  class_name : Option String
  class_id : Option String
deriving Repr, DecidableEq

/-- The clinical_metadata dictionary built by
FDA_NDC_RxNorm_Agent._get_clinical_metadata (agent.py lines 181-199): each
key is present exactly when the corresponding fetch returned a truthy
(non-empty) list. -/
structure ClinicalMetadata where
  interactions : Option (List InteractionRecord)
  drug_classes : Option (List DrugClassRecord)
deriving Repr, DecidableEq

/-- NDC_RxNorm_Match (models.py lines 74-90), without the wall-clock
`match_date` field. The float confidence is a rational. -/
structure NDC_RxNorm_Match where
  ndc_product : NDCProduct
  rxnorm_concepts : List RxNormConcept
  rxnorm_drugs : List RxNormDrug
  match_confidence : ℚ
  match_method : String
  clinical_metadata : ClinicalMetadata
deriving Repr, DecidableEq

/-- ClinicalOutput (models.py lines 93-107), without the wall-clock
`last_updated` field. -/
structure ClinicalOutput where
  ndc_code : String
  drug_name : String
  generic_name : Option String
  rxnorm_cui : Option String
  rxnorm_name : Option String
  dosage_form : Option String
  route : Option String
  strength : Option String
  ingredients : List String
  drug_classes : List String
  match_confidence : ℚ
deriving Repr, DecidableEq

/-! ## ConfidenceScorer (agent.py lines 152-179)

The source accumulates `confidence` through three independent guarded
additions and returns `min(confidence, 1.0)`; the accumulation is rendered
as the sum of the three guarded terms, each translated separately below. -/

/-- The name comparison of agent.py line 165:
`concept.name.lower() in ndc_name or ndc_name in concept.name.lower()`,
where `ndc_name` is the lowercased proprietary name. -/
def conceptNameMatches (proprietaryName : String) (c : RxNormConcept) : Bool :=
  isSubChars (lowerChars c.name) (lowerChars proprietaryName) ||
  isSubChars (lowerChars proprietaryName) (lowerChars c.name)

/-- The ingredient comparison of agent.py line 175:
`ingredient.name.lower() in ndc_ingredient or ndc_ingredient in ingredient.name.lower()`,
where `ndc_ingredient` is the lowercased substance name. -/
def ingredientMatches (substanceName : String) (ing : RxNormIngredient) : Bool :=
  isSubChars (lowerChars ing.name) (lowerChars substanceName) ||
  isSubChars (lowerChars substanceName) (lowerChars ing.name)

/-- Base term of the scorer (agent.py lines 157-159): 0.5 when
`rxnorm_concepts or rxnorm_drugs` is truthy, i.e. either list is non-empty. -/
def baseTerm (concepts : List RxNormConcept) (drugs : List RxNormDrug) : ℚ :=
  if concepts ≠ [] ∨ drugs ≠ [] then 1/2 else 0

/-- Name-match term of the scorer (agent.py lines 161-167): guarded by the
truthiness of `proprietary_name` and of `rxnorm_concepts`; the loop adds 0.3
and breaks at the first matching concept, so it adds 0.3 exactly when some
concept matches. -/
def nameTerm (p : NDCProduct) (concepts : List RxNormConcept) : ℚ :=
  match p.proprietary_name with
  | some pn =>
      if pn ≠ "" ∧ concepts ≠ [] ∧ concepts.any (conceptNameMatches pn) then 3/10 else 0
  | none => 0

/-- Contribution of ONE drug to the ingredient term (agent.py lines 172-177):
the inner loop over `drug.ingredients` adds 0.2 and breaks at the first
matching ingredient; the `break` leaves only the inner loop, so every drug
of the list contributes its own 0.2 when one of its ingredients matches.
An absent or empty ingredient list is falsy and contributes 0. -/
def drugIngredientTerm (substanceName : String) (d : RxNormDrug) : ℚ :=
  match d.ingredients with
  | some ings => if ings.any (ingredientMatches substanceName) then 1/5 else 0
  | none => 0

/-- Sum of the per-drug contributions over the whole drugs list, in loop
order (agent.py line 172 iterates over all of `rxnorm_drugs`). -/
def ingredientLoopTotal (substanceName : String) (drugs : List RxNormDrug) : ℚ :=
  drugs.foldl (fun acc d => acc + drugIngredientTerm substanceName d) 0

/-- Ingredient term of the scorer (agent.py lines 169-177): guarded by the
truthiness of `substance_name` and of `rxnorm_drugs`. -/
def ingredientTerm (p : NDCProduct) (drugs : List RxNormDrug) : ℚ :=
  match p.substance_name with
  | some sn => if sn ≠ "" ∧ drugs ≠ [] then ingredientLoopTotal sn drugs else 0
  | none => 0

/-- FDA_NDC_RxNorm_Agent._calculate_match_confidence (agent.py lines
152-179): the accumulated confidence, clamped by `min(confidence, 1.0)`. -/
def _calculate_match_confidence (p : NDCProduct) (concepts : List RxNormConcept)
    (drugs : List RxNormDrug) : ℚ :=
  min (baseTerm concepts drugs + nameTerm p concepts + ingredientTerm p drugs) 1

/-! ## Arithmetic lemmas about the scorer's terms -/

lemma baseTerm_nonneg (concepts : List RxNormConcept) (drugs : List RxNormDrug) :
    0 ≤ baseTerm concepts drugs := by
  unfold baseTerm; split <;> norm_num

lemma nameTerm_nonneg (p : NDCProduct) (concepts : List RxNormConcept) :
    0 ≤ nameTerm p concepts := by
  unfold nameTerm
  cases p.proprietary_name with
  | none => norm_num
  | some pn => dsimp only; split <;> norm_num

lemma drugIngredientTerm_nonneg (sn : String) (d : RxNormDrug) :
    0 ≤ drugIngredientTerm sn d := by
  unfold drugIngredientTerm
  cases d.ingredients with
  | none => norm_num
  | some ings => dsimp only; split <;> norm_num

lemma drugIngredientTerm_le (sn : String) (d : RxNormDrug) :
    drugIngredientTerm sn d ≤ 1/5 := by
  unfold drugIngredientTerm
  cases d.ingredients with
  | none => norm_num
  | some ings => dsimp only; split <;> norm_num

lemma ingredientFold_mono (sn : String) :
    ∀ (l : List RxNormDrug) (acc : ℚ),
      acc ≤ l.foldl (fun a d => a + drugIngredientTerm sn d) acc
  | [], acc => le_refl acc
  | d :: t, acc => by
      have h1 : acc ≤ acc + drugIngredientTerm sn d :=
        le_add_of_nonneg_right (drugIngredientTerm_nonneg sn d)
      simpa [List.foldl] using h1.trans (ingredientFold_mono sn t (acc + drugIngredientTerm sn d))

lemma ingredientFold_of_mem (sn : String) (d : RxNormDrug) :
    ∀ (l : List RxNormDrug) (acc : ℚ), d ∈ l → 0 ≤ acc →
      drugIngredientTerm sn d ≤ l.foldl (fun a x => a + drugIngredientTerm sn x) acc
  | [], _, hd, _ => absurd hd (List.not_mem_nil d)
  | x :: t, acc, hd, hacc => by
      rcases List.mem_cons.mp hd with h | h
      · subst h
        have h1 : drugIngredientTerm sn d ≤ acc + drugIngredientTerm sn d :=
          le_add_of_nonneg_left hacc
        simpa [List.foldl] using
          h1.trans (ingredientFold_mono sn t (acc + drugIngredientTerm sn d))
      · have hacc2 : 0 ≤ acc + drugIngredientTerm sn x :=
          add_nonneg hacc (drugIngredientTerm_nonneg sn x)
        simpa [List.foldl] using ingredientFold_of_mem sn d t (acc + drugIngredientTerm sn x) h hacc2

lemma ingredientFold_le (sn : String) :
    ∀ (l : List RxNormDrug) (acc : ℚ),
      l.foldl (fun a d => a + drugIngredientTerm sn d) acc ≤ acc + (l.length : ℚ) * (1/5)
  | [], acc => by simp
  | d :: t, acc => by
      have h1 := ingredientFold_le sn t (acc + drugIngredientTerm sn d)
      have h2 := drugIngredientTerm_le sn d
      simp only [List.foldl, List.length_cons] at h1 ⊢
      push_cast
      linarith

lemma ingredientLoopTotal_nonneg (sn : String) (drugs : List RxNormDrug) :
    0 ≤ ingredientLoopTotal sn drugs :=
  ingredientFold_mono sn drugs 0

lemma ingredientTerm_nonneg (p : NDCProduct) (drugs : List RxNormDrug) :
    0 ≤ ingredientTerm p drugs := by
  unfold ingredientTerm
  cases p.substance_name with
  | none => norm_num
  | some sn =>
      dsimp only; split
      · exact ingredientLoopTotal_nonneg sn drugs
      · norm_num

/-! ## Claim C1: scorer purity, bounds and the zero characterisation -/

/-- C1: the confidence scorer is a pure, deterministic function of the local
record, the concepts list and the drugs list — in this embedding it is a
Lean function, so determinism and absence of side effects are inherent —
and for every input combination the score lies in [0,1], and it equals 0
exactly when both the concepts list and the drugs list are empty. -/
theorem C1_scorer_bounded_and_zero_iff (p : NDCProduct)
    (concepts : List RxNormConcept) (drugs : List RxNormDrug) :
    0 ≤ _calculate_match_confidence p concepts drugs ∧
    _calculate_match_confidence p concepts drugs ≤ 1 ∧
    (_calculate_match_confidence p concepts drugs = 0 ↔ concepts = [] ∧ drugs = []) := by
  have hnn : 0 ≤ baseTerm concepts drugs + nameTerm p concepts + ingredientTerm p drugs :=
    add_nonneg (add_nonneg (baseTerm_nonneg _ _) (nameTerm_nonneg _ _))
      (ingredientTerm_nonneg _ _)
  refine ⟨le_min hnn zero_le_one, min_le_right _ _, ?_, ?_⟩
  · intro h0
    by_contra hne
    rw [not_and_or] at hne
    have hb : baseTerm concepts drugs = 1/2 := by
      unfold baseTerm; rw [if_pos hne]
    have h2 : (1:ℚ)/2 ≤ _calculate_match_confidence p concepts drugs := by
      unfold _calculate_match_confidence
      refine le_min ?_ (by norm_num)
      have hn := nameTerm_nonneg p concepts
      have hi := ingredientTerm_nonneg p drugs
      rw [hb]; linarith
    rw [h0] at h2; norm_num at h2
  · rintro ⟨rfl, rfl⟩
    unfold _calculate_match_confidence baseTerm nameTerm ingredientTerm
    cases p.proprietary_name <;> cases p.substance_name <;> simp

/-! ## Claim C4: how often the ingredient bonus can be awarded -/

/-- Concrete product for the C4 counterexample: a substance name and no
proprietary name. -/
def c4Product : NDCProduct :=
  { product_ndc := "00000000000", proprietary_name := none, non_proprietary_name := none,
    dosage_form_name := none, route_name := none, substance_name := some "aspirin",
    strength_number := none, strength_unit := none }

/-- Concrete drug whose ingredient list matches c4Product's substance name. -/
def c4Drug : RxNormDrug :=
  { rxcui := "1191", name := "aspirin", synonym := none, tty := "IN", base_names := none,
    ingredients := some [{ rxcui := "1191", name := "aspirin", base_names := none }] }

/-- C4 (counterexample): with two drugs that each contain a matching
ingredient, the `break` of agent.py line 177 leaves only the inner
ingredient loop, the outer loop over `rxnorm_drugs` continues, and step 3
contributes 0.2 twice: the ingredient term is 0.4 > 0.2 and the total score
is 0.5 + 0.4 = 0.9, refuting "step 3 contributes at most 0.2". -/
theorem C4_counterexample :
    ingredientTerm c4Product [c4Drug, c4Drug] = 2/5 ∧
    ¬ ingredientTerm c4Product [c4Drug, c4Drug] ≤ 1/5 ∧
    _calculate_match_confidence c4Product [] [c4Drug, c4Drug] = 9/10 := by
  have hterm : drugIngredientTerm "aspirin" c4Drug = 1/5 := by
    simp +decide [drugIngredientTerm, c4Drug]
  have hing : ingredientTerm c4Product [c4Drug, c4Drug] = 2/5 := by
    have hl : ingredientLoopTotal "aspirin" [c4Drug, c4Drug] = 2/5 := by
      simp [ingredientLoopTotal, hterm]; norm_num
    simp [ingredientTerm, c4Product, hl]
  have hcalc : _calculate_match_confidence c4Product [] [c4Drug, c4Drug] = 9/10 := by
    unfold _calculate_match_confidence
    have hb : baseTerm [] [c4Drug, c4Drug] = 1/2 := by simp [baseTerm]
    have hn : nameTerm c4Product [] = 0 := by simp [nameTerm, c4Product]
    rw [hing, hb, hn]; norm_num
  exact ⟨hing, by rw [hing]; norm_num, hcalc⟩

/-- C4 (amended): the `break` in step 3 stops only the scan of the current
drug's ingredient list, so the bonus is awarded at most once per drug: each
drug contributes at most 0.2, the whole step contributes at most
0.2 × (number of drugs), and with a single drug (the only shape the resolver
ever builds) the step contributes at most 0.2. -/
theorem C4_amended_per_drug_bonus (sn : String) (drugs : List RxNormDrug)
    (p : NDCProduct) (d : RxNormDrug) :
    drugIngredientTerm sn d ≤ 1/5 ∧
    ingredientLoopTotal sn drugs ≤ (drugs.length : ℚ) * (1/5) ∧
    ingredientTerm p [d] ≤ 1/5 := by
  refine ⟨drugIngredientTerm_le sn d, ?_, ?_⟩
  · have h := ingredientFold_le sn drugs 0
    simpa [ingredientLoopTotal] using h
  · unfold ingredientTerm
    cases p.substance_name with
    | none => norm_num
    | some s =>
        dsimp only
        split
        · have h1 : ingredientLoopTotal s [d] = drugIngredientTerm s d := by
            simp [ingredientLoopTotal]
          rw [h1]
          exact drugIngredientTerm_le s d
        · norm_num

/-! ## Claim C5: the concrete score levels 0.8 and 1.0 -/

/-- C5: when the record has a (truthy) proprietary name and the first
concept's name is in a case-insensitive substring relation with it, the
score is at least 0.8 whatever the drugs list (in particular when it is
empty); when additionally the record has a truthy substance name and some
drug's ingredient list contains a matching ingredient, the score is exactly
1.0 (0.5 + 0.3 + 0.2 and the clamp coincide). -/
theorem C5_score_eight_tenths_and_one (p : NDCProduct) (pn : String)
    (c : RxNormConcept) (cs : List RxNormConcept)
    (hpn : p.proprietary_name = some pn) (hne : pn ≠ "")
    (hmatch : conceptNameMatches pn c = true) :
    (∀ drugs : List RxNormDrug, 4/5 ≤ _calculate_match_confidence p (c :: cs) drugs) ∧
    (∀ (sn : String) (drugs : List RxNormDrug) (d : RxNormDrug)
      (ings : List RxNormIngredient),
      p.substance_name = some sn → sn ≠ "" → d ∈ drugs → d.ingredients = some ings →
      ings.any (ingredientMatches sn) = true →
      _calculate_match_confidence p (c :: cs) drugs = 1) := by
  have hname : nameTerm p (c :: cs) = 3/10 := by
    unfold nameTerm
    rw [hpn]
    dsimp only
    rw [if_pos ⟨hne, by simp, by simp [List.any_cons, hmatch]⟩]
  constructor
  · intro drugs
    unfold _calculate_match_confidence
    refine le_min ?_ (by norm_num)
    have h1 : baseTerm (c :: cs) drugs = 1/2 := by
      unfold baseTerm; rw [if_pos (Or.inl (by simp))]
    have h2 := ingredientTerm_nonneg p drugs
    rw [h1, hname]; linarith
  · intro sn drugs d ings hsn hsne hd hings hany
    unfold _calculate_match_confidence
    have h1 : baseTerm (c :: cs) drugs = 1/2 := by
      unfold baseTerm; rw [if_pos (Or.inl (by simp))]
    have hterm : drugIngredientTerm sn d = 1/5 := by
      unfold drugIngredientTerm; rw [hings]; dsimp only; rw [if_pos hany]
    have hingt : (1:ℚ)/5 ≤ ingredientTerm p drugs := by
      unfold ingredientTerm; rw [hsn]; dsimp only
      rw [if_pos ⟨hsne, List.ne_nil_of_mem hd⟩]
      calc (1:ℚ)/5 = drugIngredientTerm sn d := hterm.symm
        _ ≤ ingredientLoopTotal sn drugs :=
            ingredientFold_of_mem sn d drugs 0 hd le_rfl
    rw [h1, hname]
    have hge : (1:ℚ) ≤ 1/2 + 3/10 + ingredientTerm p drugs := by linarith
    exact min_eq_right hge

/-- Concrete inputs realising the C5 scenario. -/
def c5Product : NDCProduct :=
  { product_ndc := "00071015527", proprietary_name := some "Acetaminophen 500mg",
    non_proprietary_name := some "acetaminophen", dosage_form_name := none,
    route_name := none, substance_name := some "acetaminophen",
    strength_number := none, strength_unit := none }

/-- Concrete primary concept whose name is a case-insensitive substring of
c5Product's proprietary name. -/
def c5Concept : RxNormConcept :=
  { rxcui := "161", name := "acetaminophen", synonym := none, tty := "IN",
    language := "ENG", suppress := "N", umlscui := none }

/-- Concrete drug with an ingredient matching c5Product's substance name. -/
def c5Drug : RxNormDrug :=
  { rxcui := "161", name := "acetaminophen", synonym := none, tty := "IN",
    base_names := none,
    ingredients := some [{ rxcui := "161", name := "acetaminophen", base_names := none }] }

/-- Witness for C5 at concrete inputs: score is at least 0.8 with empty
drugs, and exactly 1 with a matching drug. -/
theorem C5_witness :
    (4/5 ≤ _calculate_match_confidence c5Product [c5Concept] []) ∧
    _calculate_match_confidence c5Product [c5Concept] [c5Drug] = 1 := by
  have h := C5_score_eight_tenths_and_one c5Product "Acetaminophen 500mg" c5Concept []
    rfl (by decide) (by decide)
  exact ⟨h.1 [],
    h.2 "acetaminophen" [c5Drug] c5Drug [{ rxcui := "161", name := "acetaminophen", base_names := none }]
      rfl (by decide) (by simp) rfl (by decide)⟩

/-! ## NDC normalisation (rxnorm_client.py lines 81-93) -/

/-- Characters removed by the `re.sub` of rxnorm_client.py line 84: hyphen
and (ASCII) whitespace, i.e. the characters Python's regex class matches on
these inputs. -/
def strippedChar (c : Char) : Bool :=
  c = '-' || c = ' ' || c = '\t' || c = '\n' || c = '\r' ||
  c.toNat = 11 || c.toNat = 12

/-- The hyphen/whitespace stripping step of RxNormClient._clean_ndc. -/
def stripNdc (ndc : String) : String :=
  ⟨ndc.data.filter (fun c => !strippedChar c)⟩

/-- RxNormClient._clean_ndc (rxnorm_client.py lines 81-93): strip hyphens
and whitespace, return 11-character strings unchanged, left-pad 10-character
strings with one zero, and return everything else unchanged. -/
def _clean_ndc (ndc : String) : String :=
  let ndc_clean := stripNdc ndc
  if ndc_clean.length = 11 then ndc_clean
  else if ndc_clean.length = 10 then "0" ++ ndc_clean
  else ndc_clean

/-! ## Claim C7: normalisation of 10- and 11-digit codes -/

/-- C7: after the hyphen/whitespace strip, a 10-character code is mapped to
the 11-character string obtained by inserting one leading zero, an
11-character code passes through unchanged, and a code of any other length
passes through unchanged (since the source tests only the length, this holds
for all inputs, in particular for all-digit codes as the claim states). -/
theorem C7_clean_ndc_normalisation (s : String) :
    ((stripNdc s).length = 10 →
      _clean_ndc s = "0" ++ stripNdc s ∧ (_clean_ndc s).length = 11) ∧
    ((stripNdc s).length = 11 → _clean_ndc s = stripNdc s) ∧
    ((stripNdc s).length ≠ 10 → (stripNdc s).length ≠ 11 → _clean_ndc s = stripNdc s) := by
  refine ⟨fun h10 => ?_, fun h11 => ?_, fun h10 h11 => ?_⟩
  · have he : _clean_ndc s = "0" ++ stripNdc s := by
      unfold _clean_ndc
      rw [if_neg (by omega), if_pos h10]
    refine ⟨he, ?_⟩
    rw [he]
    simp [String.length_append, h10]
    rfl
  · unfold _clean_ndc
    rw [if_pos h11]
  · unfold _clean_ndc
    rw [if_neg h11, if_neg h10]

/-- Witness for C7 at the spec's end-to-end code: "0071-0155-27" strips to
the 10 digits "0071015527" and normalises to "00071015527" of length 11. -/
theorem C7_witness :
    _clean_ndc "0071-0155-27" = "00071015527" ∧
    (_clean_ndc "0071-0155-27").length = 11 := by
  have h := (C7_clean_ndc_normalisation "0071-0155-27").1 (by decide)
  exact ⟨h.1.trans (by decide), h.2⟩

/-! ## The all-sources concept scan (rxnorm_client.py lines 168-220)

The parsed response of the `rxcui ... allsrc=1` query is modelled as the
list of concept groups, each group being its list of concept entries; the
`data.get("relatedGroup") and ....get("conceptGroup")` truthiness test
collapses an absent or empty nesting to the empty list, and a group whose
`concept` key is absent or empty to the empty entry list, exactly as the
source's truthiness checks do. -/

/-- One concept entry of the all-sources response; every field is read with
`concept.get(...)`, so every field may be absent. `baseNames` stands for
`concept.get("baseNames", {}).get("baseName", [])`. -/
structure ConceptEntry where
  rxcui : Option String
  name : Option String
  synonym : Option String
  tty : Option String
  baseNames : List String
deriving Repr, DecidableEq

/-- The term-type tags treated as drug-level by get_rxnorm_drug
(rxnorm_client.py line 192): `tty in ["BN", "PIN", "IN"]`. -/
def eligibleTty (tty : String) : Bool :=
  tty = "BN" || tty = "PIN" || tty = "IN"

/-- The `drug_info` dictionary built at rxnorm_client.py lines 193-199. -/
structure DrugInfo where
  rxcui : String
  name : String
  synonym : Option String
  tty : String
  base_names : List String
deriving Repr, DecidableEq

/-- The ingredient record built at rxnorm_client.py lines 203-207. -/
def mkIngredient (c : ConceptEntry) : RxNormIngredient :=
  { rxcui := c.rxcui.getD "", name := c.name.getD "", base_names := some c.baseNames }

/-- The drug_info record built at rxnorm_client.py lines 193-199 from a
concept entry and the queried rxcui. -/
def mkDrugInfo (r : String) (c : ConceptEntry) (tty : String) : DrugInfo :=
  { rxcui := r, name := c.name.getD "", synonym := c.synonym, tty := tty,
    base_names := c.baseNames }

/-- One iteration of the loop at rxnorm_client.py lines 186-208: a group
with a falsy `concept` list is skipped, otherwise only the FIRST entry
(`concept_group["concept"][0]`, line 188) is examined: an eligible tag
overwrites `drug_info`, the tag "IN" additionally appends an ingredient. -/
def drugScanStep (r : String) (st : Option DrugInfo × List RxNormIngredient)
    (g : List ConceptEntry) : Option DrugInfo × List RxNormIngredient :=
  match g with
  | [] => st
  | c :: _ =>
      let tty := c.tty.getD ""
      (if eligibleTty tty then some (mkDrugInfo r c tty) else st.1,
       if tty = "IN" then st.2 ++ [mkIngredient c] else st.2)

/-- RxNormClient.get_rxnorm_drug (rxnorm_client.py lines 168-220), given the
parsed concept groups of the all-sources response: fold the scan over all
groups, return none when `drug_info` was never set, otherwise build the
RxNormDrug, with `ingredients if ingredients else None` (line 213) turning
an empty collected list into an absent field. -/
def get_rxnorm_drug (rxcui : String) (groups : List (List ConceptEntry)) :
    Option RxNormDrug :=
  if groups = [] then none
  else
    match groups.foldl (drugScanStep rxcui) (none, []) with
    | (none, _) => none
    | (some info, ings) =>
        some { rxcui := info.rxcui, name := info.name, synonym := info.synonym,
               tty := info.tty, base_names := some info.base_names,
               ingredients := if ings = [] then none else some ings }

/-- Whether a group's first concept entry carries a drug-level tag. -/
def eligibleHeadGroup (g : List ConceptEntry) : Bool :=
  match g with
  | [] => false
  | c :: _ => eligibleTty (c.tty.getD "")

/-- The first entries tagged "IN", group by group, in scan order. -/
def inHeadEntries (groups : List (List ConceptEntry)) : List ConceptEntry :=
  groups.filterMap (fun g =>
    match g with
    | [] => none
    | c :: _ => if c.tty.getD "" = "IN" then some c else none)

lemma drugScanStep_fst_isSome (r : String)
    (st : Option DrugInfo × List RxNormIngredient) (g : List ConceptEntry) :
    (drugScanStep r st g).1.isSome = (eligibleHeadGroup g || st.1.isSome) := by
  cases g with
  | nil => simp [drugScanStep, eligibleHeadGroup]
  | cons c rest =>
      simp only [drugScanStep, eligibleHeadGroup]
      by_cases he : eligibleTty (c.tty.getD "") <;> simp [he]

lemma scan_fst_isSome (r : String) :
    ∀ (groups : List (List ConceptEntry)) (st : Option DrugInfo × List RxNormIngredient),
      ((groups.foldl (drugScanStep r) st).1).isSome
        = (st.1.isSome || groups.any eligibleHeadGroup)
  | [], st => by simp
  | g :: t, st => by
      simp only [List.foldl_cons, List.any_cons]
      rw [scan_fst_isSome r t (drugScanStep r st g), drugScanStep_fst_isSome]
      cases st.1.isSome <;> cases eligibleHeadGroup g <;> cases t.any eligibleHeadGroup <;> rfl

lemma scan_snd (r : String) :
    ∀ (groups : List (List ConceptEntry)) (st : Option DrugInfo × List RxNormIngredient),
      (groups.foldl (drugScanStep r) st).2
        = st.2 ++ (inHeadEntries groups).map mkIngredient
  | [], st => by simp [inHeadEntries]
  | g :: t, st => by
      rw [List.foldl_cons, scan_snd r t]
      cases g with
      | nil => simp [drugScanStep, inHeadEntries, List.filterMap_cons]
      | cons c rest =>
          simp only [drugScanStep, inHeadEntries, List.filterMap_cons]
          by_cases hin : c.tty.getD "" = "IN"
          · simp [hin, List.append_assoc]
          · simp [hin]

lemma drugScanStep_take_one (r : String)
    (st : Option DrugInfo × List RxNormIngredient) (g : List ConceptEntry) :
    drugScanStep r st (g.take 1) = drugScanStep r st g := by
  cases g <;> rfl

/-! ## Claim C6: what the all-sources drug scan actually examines -/

/-- Concrete counterexample groups for C6: one related concept group whose
FIRST entry has the ineligible tag "DF" while its SECOND entry has the
eligible tag "BN". -/
def c6Groups : List (List ConceptEntry) :=
  [[{ rxcui := some "100", name := some "Oral Tablet", synonym := none,
      tty := some "DF", baseNames := [] },
    { rxcui := some "200", name := some "Tylenol", synonym := none,
      tty := some "BN", baseNames := [] }]]

/-- C6 (counterexample): the scan reads only `concept_group["concept"][0]`
(rxnorm_client.py line 188), not all concept entries: on `c6Groups` an
entry tagged "BN" (brand-name, eligible per the claim) is present among the
entries of the related groups, yet get_rxnorm_drug returns none because the
group's FIRST entry is tagged "DF". -/
theorem C6_counterexample :
    get_rxnorm_drug "161" c6Groups = none ∧
    (c6Groups.any fun g => g.any fun c => eligibleTty (c.tty.getD "")) = true := by
  constructor <;> decide

/-- C6 (amended): get_rxnorm_drug examines only the FIRST concept entry of
each related concept group: the result is unchanged when every group is
truncated to its first entry; it is `some` exactly when some group's first
entry carries an eligible tag (BN, PIN or IN); and the returned drug's
ingredient children are exactly the first entries tagged IN (none when
there are none). -/
theorem C6_amended_first_entry_scan (r : String) (groups : List (List ConceptEntry)) :
    get_rxnorm_drug r groups = get_rxnorm_drug r (groups.map (fun g => g.take 1)) ∧
    ((get_rxnorm_drug r groups).isSome = groups.any eligibleHeadGroup) ∧
    (∀ drug, get_rxnorm_drug r groups = some drug →
      drug.ingredients =
        if (inHeadEntries groups).map mkIngredient = [] then none
        else some ((inHeadEntries groups).map mkIngredient)) := by
  refine ⟨?_, ?_, ?_⟩
  · unfold get_rxnorm_drug
    have hfun : (fun (st : Option DrugInfo × List RxNormIngredient)
        (g : List ConceptEntry) => drugScanStep r st (g.take 1)) = drugScanStep r :=
      funext fun st => funext fun g => drugScanStep_take_one r st g
    by_cases hg : groups = []
    · simp [hg]
    · rw [if_neg hg, if_neg (by simpa using hg), List.foldl_map, hfun]
  · by_cases hg : groups = []
    · subst hg; simp [get_rxnorm_drug]
    · unfold get_rxnorm_drug
      rw [if_neg hg]
      have h := scan_fst_isSome r groups (none, [])
      rcases hfold : groups.foldl (drugScanStep r) (none, []) with ⟨di, ings⟩
      rw [hfold] at h
      cases di with
      | none => simpa using h.symm
      | some info => simpa using h.symm
  · intro drug hdrug
    unfold get_rxnorm_drug at hdrug
    by_cases hg : groups = []
    · rw [if_pos hg] at hdrug; exact absurd hdrug (by simp)
    · rw [if_neg hg] at hdrug
      have hi := scan_snd r groups (none, [])
      rcases hfold : groups.foldl (drugScanStep r) (none, []) with ⟨di, ings⟩
      rw [hfold] at hdrug hi
      simp only [List.nil_append] at hi
      cases di with
      | none => exact absurd hdrug (by simp)
      | some info =>
          have hd := Option.some.inj hdrug
          subst hd
          dsimp only
          rw [hi]

/-! ## Claim C10: a constructed drug's ingredient field is none or non-empty -/

/-- C10: every RxNormDrug that get_rxnorm_drug constructs has an
`ingredients` field that is either absent or a non-empty list — the
`ingredients if ingredients else None` of rxnorm_client.py line 213 turns
an empty collected list into an absent field — so presence and
non-emptiness of the field coincide for consumers. -/
theorem C10_ingredients_none_or_nonempty (r : String)
    (groups : List (List ConceptEntry)) (drug : RxNormDrug)
    (h : get_rxnorm_drug r groups = some drug) :
    drug.ingredients = none ∨ ∃ l, drug.ingredients = some l ∧ l ≠ [] := by
  unfold get_rxnorm_drug at h
  by_cases hg : groups = []
  · rw [if_pos hg] at h; exact absurd h (by simp)
  · rw [if_neg hg] at h
    rcases hfold : groups.foldl (drugScanStep r) (none, []) with ⟨di, ings⟩
    rw [hfold] at h
    cases di with
    | none => exact absurd h (by simp)
    | some info =>
        have hd := Option.some.inj h
        subst hd
        dsimp only
        by_cases he : ings = []
        · exact Or.inl (by rw [if_pos he])
        · exact Or.inr ⟨ings, by rw [if_neg he], he⟩

/-- Concrete groups realising C10: one group whose first entry is tagged
"IN", so the constructed drug carries exactly one ingredient child. -/
def c10Groups : List (List ConceptEntry) :=
  [[{ rxcui := some "161", name := some "acetaminophen", synonym := none,
      tty := some "IN", baseNames := [] }]]

/-- The drug get_rxnorm_drug builds from c10Groups. -/
def c10Drug : RxNormDrug :=
  { rxcui := "161", name := "acetaminophen", synonym := none, tty := "IN",
    base_names := some [],
    ingredients := some [{ rxcui := "161", name := "acetaminophen", base_names := some [] }] }

/-- Witness for C10 at a concrete response: the constructed drug exists and
its ingredient field is a non-empty list. -/
theorem C10_witness :
    get_rxnorm_drug "161" c10Groups = some c10Drug ∧
    (c10Drug.ingredients = none ∨ ∃ l, c10Drug.ingredients = some l ∧ l ≠ []) := by
  have h : get_rxnorm_drug "161" c10Groups = some c10Drug := by decide
  exact ⟨h, C10_ingredients_none_or_nonempty "161" c10Groups c10Drug h⟩

/-! ## The shared retry wrapper (rxnorm_client.py lines 27-52) -/

/-- Outcome of one HTTP attempt: a parsed response, or a transport failure
(the requests.exceptions.RequestException of line 44: connection error,
timeout, or the non-2xx raised by raise_for_status). -/
inductive Transport (α : Type) where
  | ok (response : α)
  | fail
deriving Repr, DecidableEq

/-- What one call of _make_request does: the returned-or-raised result
(`Except.error` models the RuntimeError of line 49), the number of attempts
issued, and the backoff sleeps performed, in order. -/
structure RequestTrace (α : Type) where
  result : Except String α
  attempts : Nat
  sleeps : List ℚ

/-- The retry loop of _make_request (rxnorm_client.py lines 31-49), with `i`
the 0-based index of the current attempt and `fuel` the remaining iterations
of `range(RXNORM_API_RETRY_ATTEMPTS)`: a successful attempt returns its
parsed response; a failing attempt sleeps `RETRY_DELAY * (attempt + 1)`
(line 47) and retries while later attempts remain, and raises (line 49) once
none do. A zero-iteration loop falls through to `return {}` (line 52),
modelled by the response type's default (empty-response) value. -/
def requestLoop {α : Type} [Inhabited α] (delay : ℚ) (oracle : Nat → Transport α) :
    Nat → Nat → List ℚ → RequestTrace α
  | i, 0, sleeps => ⟨Except.ok default, i, sleeps⟩
  | i, fuel + 1, sleeps =>
      match oracle i with
      | Transport.ok a => ⟨Except.ok a, i + 1, sleeps⟩
      | Transport.fail =>
          if fuel = 0 then
            ⟨Except.error "Failed to make RxNorm API request", i + 1, sleeps⟩
          else
            requestLoop delay oracle (i + 1) fuel (sleeps ++ [delay * ((i : ℚ) + 1)])

/-- RxNormClient._make_request (rxnorm_client.py lines 27-52): run the retry
loop from attempt 0 with the configured attempt budget
(settings.RXNORM_API_RETRY_ATTEMPTS) and delay (RXNORM_API_RETRY_DELAY). -/
def _make_request {α : Type} [Inhabited α] (retryAttempts : Nat) (delay : ℚ)
    (oracle : Nat → Transport α) : RequestTrace α :=
  requestLoop delay oracle 0 retryAttempts []

lemma requestLoop_attempts_le {α : Type} [Inhabited α] (delay : ℚ)
    (oracle : Nat → Transport α) :
    ∀ (fuel i : Nat) (sleeps : List ℚ),
      (requestLoop delay oracle i fuel sleeps).attempts ≤ i + fuel
  | 0, i, s => by simp [requestLoop]
  | fuel + 1, i, s => by
      cases h : oracle i with
      | ok a => simp [requestLoop, h]
      | fail =>
          simp only [requestLoop, h]
          by_cases hf : fuel = 0
          · simp [hf]
          · rw [if_neg hf]
            exact le_trans
              (requestLoop_attempts_le delay oracle fuel (i + 1)
                (s ++ [delay * ((i : ℚ) + 1)]))
              (by omega)

lemma requestLoop_allfail {α : Type} [Inhabited α] (delay : ℚ)
    (oracle : Nat → Transport α) (hfail : ∀ j, oracle j = Transport.fail) :
    ∀ (fuel i : Nat) (sleeps : List ℚ), fuel ≠ 0 →
      requestLoop delay oracle i fuel sleeps =
        ⟨Except.error "Failed to make RxNorm API request", i + fuel,
         sleeps ++ (List.range' i (fuel - 1)).map (fun j => delay * ((j : ℚ) + 1))⟩
  | 0, i, s, h0 => absurd rfl h0
  | fuel + 1, i, s, _ => by
      simp only [requestLoop, hfail i]
      by_cases hf : fuel = 0
      · subst hf; simp
      · rw [if_neg hf,
          requestLoop_allfail delay oracle hfail fuel (i + 1)
            (s ++ [delay * ((i : ℚ) + 1)]) hf]
        obtain ⟨k, rfl⟩ := Nat.exists_eq_succ_of_ne_zero hf
        simp only [RequestTrace.mk.injEq]
        refine ⟨trivial, by omega, ?_⟩
        simp [List.range'_succ, List.append_assoc]

/-! ## Identifier resolution (rxnorm_client.py lines 54-129) -/

/-- The `ndcStatus` object of an ndcstatus response, with the fields
find_rxcui_by_ndc and _find_rxcui_alternative read; `data.get("ndcStatus")`
is only ever tested for truthiness, so an absent or empty object is
collapsed to `none` around this structure. -/
structure NdcStatus where
  status : Option String
  rxcui : Option String
  ingredient : Option String
deriving Repr, DecidableEq

/-- The drugs-search response as _find_rxcui_by_ingredient reads it
(rxnorm_client.py lines 117-123): the concept groups of
`drugGroup.conceptGroup`, each group its `concept` list, each concept its
optional `rxcui` — the only field read. Absent or falsy nestings collapse
to empty lists. -/
abbrev DrugsResp := List (List (Option String))

/-- Transport behaviour of the remote service for the requests the
identifier-resolution chain issues, one attempt oracle per request: the
ndcstatus request of find_rxcui_by_ndc (line 69), the repeated ndcstatus
request of _find_rxcui_alternative (line 99), and the drugs request of
_find_rxcui_by_ingredient (line 117), each keyed by its query parameter. -/
structure GatewayOracle where
  ndcstatusReq : String → Nat → Transport (Option NdcStatus)
  ndcstatusReq2 : String → Nat → Transport (Option NdcStatus)
  drugsReq : String → Nat → Transport DrugsResp

/-- The scan of rxnorm_client.py lines 120-123: the first group with a
truthy `concept` list yields its first concept's optional rxcui (even when
that rxcui is itself absent); no such group yields none (line 125). -/
def firstGroupRxcui : DrugsResp → Option String
  | [] => none
  | [] :: gs => firstGroupRxcui gs
  | (c :: _) :: _ => c

/-- RxNormClient._find_rxcui_by_ingredient (rxnorm_client.py lines 113-129):
a terminal transport failure is caught by the `except` of lines 127-129 and
becomes none. -/
def _find_rxcui_by_ingredient (retryAttempts : Nat) (delay : ℚ) (g : GatewayOracle)
    (ingredient_name : String) : Option String :=
  match (_make_request retryAttempts delay (g.drugsReq ingredient_name)).result with
  | Except.error _ => none
  | Except.ok data => firstGroupRxcui data

/-- RxNormClient._find_rxcui_alternative (rxnorm_client.py lines 95-111):
repeat the ndcstatus request, follow a truthy `ingredient` field into the
name search; a terminal transport failure is caught by the `except` of
lines 109-111 and becomes none. -/
def _find_rxcui_alternative (retryAttempts : Nat) (delay : ℚ) (g : GatewayOracle)
    (ndc : String) : Option String :=
  match (_make_request retryAttempts delay (g.ndcstatusReq2 ndc)).result with
  | Except.error _ => none
  | Except.ok data =>
      match data with
      | some st =>
          match st.ingredient with
          | some ing =>
              if ing = "" then none
              else _find_rxcui_by_ingredient retryAttempts delay g ing
          | none => none
      | none => none

/-- RxNormClient.find_rxcui_by_ndc (rxnorm_client.py lines 54-79): clean the
code, issue the ndcstatus request, return the status object's rxcui when the
status is "Active", otherwise fall back to the alternative path; a terminal
transport failure is caught by the `except` of lines 77-79 and becomes
none — it does NOT escape this method. -/
def find_rxcui_by_ndc (retryAttempts : Nat) (delay : ℚ) (g : GatewayOracle)
    (ndc : String) : Option String :=
  match (_make_request retryAttempts delay (g.ndcstatusReq (_clean_ndc ndc))).result with
  | Except.error _ => none
  | Except.ok data =>
      match data with
      | some st =>
          if st.status = some "Active" then st.rxcui
          else _find_rxcui_alternative retryAttempts delay g (_clean_ndc ndc)
      | none => _find_rxcui_alternative retryAttempts delay g (_clean_ndc ndc)

/-! ## MatchResolver (agent.py lines 107-150)

The gateway calls the resolver makes are passed in as their results; each
of the client methods above catches its own transport failures, so the
resolver only ever sees ordinary optional values. -/

/-- The results of the five gateway lookups _match_single_ndc makes for one
record: identifier resolution, concept fetch, drug fetch, and the two
metadata fetches (already-caught: each client method returns an ordinary
value on failure, lists defaulting to empty). -/
structure GatewayResults where
  rxcui : Option String
  concept : Option RxNormConcept
  drug : Option RxNormDrug
  interactions : List InteractionRecord
  drug_classes : List DrugClassRecord

/-- FDA_NDC_RxNorm_Agent._get_clinical_metadata (agent.py lines 181-199):
each key is stored only when the fetched list is truthy (non-empty). -/
def _get_clinical_metadata (g : GatewayResults) : ClinicalMetadata :=
  { interactions := if g.interactions = [] then none else some g.interactions,
    drug_classes := if g.drug_classes = [] then none else some g.drug_classes }

/-- FDA_NDC_RxNorm_Agent._match_single_ndc (agent.py lines 107-150): a falsy
rxcui (`if not rxcui`, line 113 — absent OR the empty string) is a miss;
otherwise the concept and drug results are wrapped into singleton-or-empty
lists, scored, and packed into a Match tagged "direct_ndc_lookup". -/
def _match_single_ndc (g : GatewayResults) (p : NDCProduct) :
    Option NDC_RxNorm_Match :=
  match g.rxcui with
  | none => none
  | some rxcui =>
      if rxcui = "" then none
      else
        some { ndc_product := p,
               rxnorm_concepts := match g.concept with | some c => [c] | none => [],
               rxnorm_drugs := match g.drug with | some d => [d] | none => [],
               match_confidence := _calculate_match_confidence p
                 (match g.concept with | some c => [c] | none => [])
                 (match g.drug with | some d => [d] | none => []),
               match_method := "direct_ndc_lookup",
               clinical_metadata := _get_clinical_metadata g }

lemma confidence_nil_nil (p : NDCProduct) :
    _calculate_match_confidence p [] [] = 0 := by
  unfold _calculate_match_confidence baseTerm nameTerm ingredientTerm
  cases p.proprietary_name <;> cases p.substance_name <;> simp

/-! ## Claim C2: when resolution is a miss and the degenerate Match -/

/-- Concrete gateway results for the C2 counterexample: identifier
resolution returns the empty string, a value the remote ndcstatus endpoint
can put in its `rxcui` field. -/
def c2Gateway : GatewayResults :=
  { rxcui := some "", concept := none, drug := none,
    interactions := [], drug_classes := [] }

/-- Concrete record for the C2 counterexample. -/
def c2Product : NDCProduct :=
  { product_ndc := "00000000000", proprietary_name := none,
    non_proprietary_name := none, dosage_form_name := none, route_name := none,
    substance_name := none, strength_number := none, strength_unit := none }

/-- C2 (counterexample): `if not rxcui` (agent.py line 113) tests Python
truthiness, not None-ness: when identifier resolution returns the EMPTY
STRING — a value `data["ndcStatus"].get("rxcui")` can produce — the
resolver returns none even though identifier resolution did not return
none, refuting "returns none exactly when identifier resolution returns
none". -/
theorem C2_counterexample :
    _match_single_ndc c2Gateway c2Product = none ∧ c2Gateway.rxcui = some "" :=
  ⟨rfl, rfl⟩

/-- C2 (amended): the resolver misses exactly when identifier resolution
returns none OR the empty string (the falsy values of `if not rxcui`); and
whenever a truthy identifier resolves but neither a concept nor a drug can
be fetched, the resolver still constructs the degenerate Match with empty
concept and drug lists and score 0.0 rather than discarding the record. -/
theorem C2_amended_miss_iff_and_degenerate (g : GatewayResults) (p : NDCProduct) :
    (_match_single_ndc g p = none ↔ g.rxcui = none ∨ g.rxcui = some "") ∧
    (∀ r, g.rxcui = some r → r ≠ "" → g.concept = none → g.drug = none →
      _match_single_ndc g p =
        some { ndc_product := p, rxnorm_concepts := [], rxnorm_drugs := [],
               match_confidence := 0, match_method := "direct_ndc_lookup",
               clinical_metadata := _get_clinical_metadata g }) := by
  constructor
  · unfold _match_single_ndc
    cases hr : g.rxcui with
    | none => simp
    | some r =>
        dsimp only
        by_cases hr0 : r = ""
        · subst hr0; simp
        · rw [if_neg hr0]; simp [hr0]
  · intro r hr hr0 hc hd
    unfold _match_single_ndc
    rw [hr]
    dsimp only
    rw [if_neg hr0, hc, hd]
    simp [confidence_nil_nil]

/-- Witness for C2 at concrete inputs: a truthy identifier with no concept
and no drug yields the degenerate Match. -/
def c2GatewayDegenerate : GatewayResults :=
  { rxcui := some "161", concept := none, drug := none,
    interactions := [], drug_classes := [] }

theorem C2_witness :
    _match_single_ndc c2GatewayDegenerate c2Product =
      some { ndc_product := c2Product, rxnorm_concepts := [], rxnorm_drugs := [],
             match_confidence := 0, match_method := "direct_ndc_lookup",
             clinical_metadata := _get_clinical_metadata c2GatewayDegenerate } :=
  (C2_amended_miss_iff_and_degenerate c2GatewayDegenerate c2Product).2
    "161" rfl (by decide) rfl rfl

/-! ## Claim C3: retry behaviour and where the terminal failure is caught -/

/-- All-fail transport oracles for the C3 counterexample and witness: every
attempt of every request fails at the transport level. -/
def c3Gateway : GatewayOracle :=
  { ndcstatusReq := fun _ _ => Transport.fail,
    ndcstatusReq2 := fun _ _ => Transport.fail,
    drugsReq := fun _ _ => Transport.fail }

/-- C3 (counterexample): with the configured three attempts all failing,
_make_request raises its terminal RuntimeError — but find_rxcui_by_ndc
returns the ordinary miss value none: the terminal failure is caught by the
gateway method's own `except` clause (rxnorm_client.py lines 77-79) and
never propagates out of the gateway to the MatchResolver, refuting the
claim's propagation clause. -/
theorem C3_counterexample :
    (_make_request 3 1 (c3Gateway.ndcstatusReq (_clean_ndc "00071015527"))).result
      = Except.error "Failed to make RxNorm API request" ∧
    find_rxcui_by_ndc 3 1 c3Gateway "00071015527" = none := by
  have h := requestLoop_allfail 1 (c3Gateway.ndcstatusReq (_clean_ndc "00071015527"))
    (fun j => rfl) 3 0 [] (by omega)
  have hres : (_make_request 3 1 (c3Gateway.ndcstatusReq (_clean_ndc "00071015527"))).result
      = Except.error "Failed to make RxNorm API request" := by
    unfold _make_request; rw [h]
  refine ⟨hres, ?_⟩
  unfold find_rxcui_by_ndc
  rw [hres]

/-- C3 (amended): the shared retry wrapper makes at most the configured
number of attempts; when every attempt fails at the transport level it
makes exactly that many attempts, sleeps the linearly increasing backoff
delay*(attempt+1) between consecutive attempts, and raises a terminal
failure after the last attempt. That terminal failure is caught INSIDE the
gateway's own lookup method (the `except` of find_rxcui_by_ndc), which
converts it to the miss value none; the MatchResolver then records a
per-record miss for that record, so no other record's resolution is
affected. -/
theorem C3_amended_retry_and_conversion (retryAttempts : Nat) (delay : ℚ)
    (o : Nat → Transport (Option NdcStatus)) (g : GatewayOracle) (ndc : String)
    (gr : GatewayResults) (p : NDCProduct) :
    ((_make_request retryAttempts delay o).attempts ≤ retryAttempts) ∧
    ((∀ j, o j = Transport.fail) → retryAttempts ≠ 0 →
      (_make_request retryAttempts delay o).result
          = Except.error "Failed to make RxNorm API request" ∧
      (_make_request retryAttempts delay o).attempts = retryAttempts ∧
      (_make_request retryAttempts delay o).sleeps
          = (List.range (retryAttempts - 1)).map (fun j => delay * ((j : ℚ) + 1))) ∧
    ((∀ s j, g.ndcstatusReq s j = Transport.fail) → retryAttempts ≠ 0 →
      find_rxcui_by_ndc retryAttempts delay g ndc = none) ∧
    (gr.rxcui = none → _match_single_ndc gr p = none) := by
  refine ⟨?_, fun hfail hR => ?_, fun hfail hR => ?_, fun hr => ?_⟩
  · unfold _make_request
    simpa using requestLoop_attempts_le delay o retryAttempts 0 []
  · have h := requestLoop_allfail delay o hfail retryAttempts 0 [] hR
    unfold _make_request
    rw [h]
    refine ⟨rfl, by simp, ?_⟩
    simp [List.range_eq_range']
  · have h := requestLoop_allfail delay (g.ndcstatusReq (_clean_ndc ndc))
      (fun j => hfail _ j) retryAttempts 0 [] hR
    unfold find_rxcui_by_ndc _make_request
    rw [h]
  · unfold _match_single_ndc
    rw [hr]

/-- All-fail oracle at the response type of the ndcstatus endpoint, for the
C3 witness. -/
def c3AllFail : Nat → Transport (Option NdcStatus) := fun _ => Transport.fail

/-- Gateway results with no resolved identifier, for the C3 witness. -/
def c3Results : GatewayResults :=
  { rxcui := none, concept := none, drug := none,
    interactions := [], drug_classes := [] }

/-- Record used by the C3 witness. -/
def c3Product : NDCProduct :=
  { product_ndc := "00071015527", proprietary_name := none,
    non_proprietary_name := none, dosage_form_name := none, route_name := none,
    substance_name := none, strength_number := none, strength_unit := none }

/-- Witness for C3 at the configured values (3 attempts, delay 1): exactly 3
attempts, sleeps 1 and 2 between them, terminal error raised, converted to a
miss inside the gateway, and the resolver misses on an unresolved
identifier. -/
theorem C3_witness :
    (_make_request 3 1 c3AllFail).result
        = Except.error "Failed to make RxNorm API request" ∧
    (_make_request 3 1 c3AllFail).attempts = 3 ∧
    (_make_request 3 1 c3AllFail).sleeps = [1, 2] ∧
    find_rxcui_by_ndc 3 1 c3Gateway "00071015527" = none ∧
    _match_single_ndc c3Results c3Product = none := by
  have h := C3_amended_retry_and_conversion 3 1 c3AllFail c3Gateway "00071015527"
    c3Results c3Product
  have h2 := h.2.1 (fun j => rfl) (by omega)
  refine ⟨h2.1, h2.2.1, ?_, h.2.2.1 (fun s j => rfl) (by omega), h.2.2.2 rfl⟩
  rw [h2.2.2]
  norm_num [List.range_succ]

/-! ## BatchOrchestrator (agent.py lines 46-105)

The loop `for i in range(0, len(ndc_products), batch_size)` is translated by
the start indices 0, C, 2C, ...: Python's `range(0, N, C)` has exactly
ceil(N/C) = (N + C - 1) / C elements for C > 0. Each iteration slices
`ndc_products[i:i+C]`, resolves the chunk on a thread pool, extends
`all_matches`, and synchronously calls the per-chunk hook
`_save_batch_results(batch_matches, i // batch_size)` before the next
iteration starts; the hook-call list below is therefore in execution
order, one entry per chunk, carrying exactly that chunk's completed
matches. The `as_completed` collection order inside one chunk is
thread-timing dependent; _process_batch is modelled in submission order,
which carries the same set of matches. -/

/-- The start indices produced by `range(0, N, C)` (agent.py line 68). -/
def batchStarts (n c : Nat) : List Nat :=
  (List.range ((n + c - 1) / c)).map (· * c)

/-- FDA_NDC_RxNorm_Agent._process_batch (agent.py lines 84-105): resolve
each product of the chunk; failed or missed products contribute nothing
(the `if match:` of line 100 and the per-future exception handler). -/
def _process_batch (resolve : NDCProduct → Option NDC_RxNorm_Match)
    (batch : List NDCProduct) : List NDC_RxNorm_Match :=
  batch.filterMap resolve

/-- FDA_NDC_RxNorm_Agent.match_ndc_to_rxnorm (agent.py lines 46-82): the
first component lists the hook invocations (one call of _save_batch_results
per chunk, in execution order, each receiving its own chunk's matches); the
second is the accumulated `all_matches`. -/
def match_ndc_to_rxnorm (resolve : NDCProduct → Option NDC_RxNorm_Match)
    (ndc_products : List NDCProduct) (batch_size : Nat) :
    List (List NDC_RxNorm_Match) × List NDC_RxNorm_Match :=
  let hookCalls := (batchStarts ndc_products.length batch_size).map
    (fun i => _process_batch resolve ((ndc_products.drop i).take batch_size))
  (hookCalls, hookCalls.flatten)

/-! ## Claim C8: hook invocations per chunk -/

/-- C8: with N records and chunk size C > 0, the per-chunk side-effect hook
(_save_batch_results) is invoked exactly ceil(N/C) times, and the i-th
invocation receives exactly the matches completed for the i-th chunk
`ndc_products[i*C : i*C + C]`. The loop is sequential — each hook call
returns before the next chunk starts — which the execution-ordered
invocation list renders. -/
theorem C8_chunk_hook_invocations (resolve : NDCProduct → Option NDC_RxNorm_Match)
    (ndc_products : List NDCProduct) (c : Nat) (hc : c ≠ 0) :
    (match_ndc_to_rxnorm resolve ndc_products c).1.length
      = (ndc_products.length + c - 1) / c ∧
    (∀ i, i < (ndc_products.length + c - 1) / c →
      ((match_ndc_to_rxnorm resolve ndc_products c).1)[i]?
        = some (((ndc_products.drop (i * c)).take c).filterMap resolve)) := by
  constructor
  · simp [match_ndc_to_rxnorm, batchStarts]
  · intro i hi
    simp [match_ndc_to_rxnorm, batchStarts, _process_batch,
      List.getElem?_map, List.getElem?_range hi]

/-- Record used by the C8 witness. -/
def c8Product : NDCProduct :=
  { product_ndc := "00000000000", proprietary_name := none,
    non_proprietary_name := none, dosage_form_name := none, route_name := none,
    substance_name := none, strength_number := none, strength_unit := none }

/-- Resolver used by the C8 witness: every record is a miss. -/
def c8Resolve : NDCProduct → Option NDC_RxNorm_Match := fun _ => none

/-- Witness for C8 at N = 5 records and chunk size C = 2: the hook fires
ceil(5/2) = 3 times and the second invocation receives its own (here empty)
chunk result. -/
theorem C8_witness :
    (match_ndc_to_rxnorm c8Resolve
        [c8Product, c8Product, c8Product, c8Product, c8Product] 2).1.length = 3 ∧
    ((match_ndc_to_rxnorm c8Resolve
        [c8Product, c8Product, c8Product, c8Product, c8Product] 2).1)[1]?
      = some [] := by
  have h := C8_chunk_hook_invocations c8Resolve
    [c8Product, c8Product, c8Product, c8Product, c8Product] 2 (by omega)
  exact ⟨h.1.trans (by simp), (h.2 1 (by simp)).trans (by simp [c8Resolve])⟩

/-! ## ClinicalProjector (agent.py lines 264-309)

generate_clinical_output derives one ClinicalOutput per Match inside a
per-match try/except; a match whose derivation raises is logged and
skipped (lines 305-307). The only raising step on this data is pydantic's
validation of `drug_classes: List[str]` when a drug-class entry's
`class_name` — `concept.get("name")` in get_drug_classes — is absent:
the list comprehension of line 286 then contains None, which the
ClinicalOutput model rejects. The per-match derivation is therefore
modelled as an optional result, none exactly on that validation failure. -/

/-- Collect a list of optional values, failing on the first absent one:
models pydantic's validation of the derived `List[str]` field. -/
def optList {α : Type} : List (Option α) → Option (List α)
  | [] => some []
  | none :: _ => none
  | some a :: rest => (optList rest).map (fun l => a :: l)

/-- The strength field of agent.py line 297: the f-string when both parts
are truthy, else None. -/
def strengthField (p : NDCProduct) : Option String :=
  match p.strength_number, p.strength_unit with
  | some n, some u => if n ≠ "" ∧ u ≠ "" then some (n ++ " " ++ u) else none
  | _, _ => none

/-- The ingredient flattening of agent.py lines 279-281: under
`if match.rxnorm_drugs and match.rxnorm_drugs[0].ingredients:` the names of
the FIRST drug's ingredient list are flattened; an empty drugs list, an
absent ingredient field or an empty (falsy) ingredient list yields []. -/
def projIngredients (drugs : List RxNormDrug) : List String :=
  match drugs with
  | [] => []
  | d :: _ =>
      match d.ingredients with
      | some ings =>
          if ings = [] then [] else ings.map (fun i : RxNormIngredient => i.name)
      | none => []

/-- The drug-class flattening of agent.py lines 284-286: an absent or falsy
`drug_classes` metadata entry yields []; a truthy entry is flattened to the
`class_name` of each of its records, which pydantic's `List[str]` accepts
only when every name is present (optList), failing — none — otherwise. -/
def projDrugClasses (md : ClinicalMetadata) : Option (List String) :=
  match md.drug_classes with
  | some cls =>
      if cls = [] then some []
      else optList (cls.map (fun cr : DrugClassRecord => cr.class_name))
  | none => some []

/-- The per-match body of FDA_NDC_RxNorm_Agent.generate_clinical_output
(agent.py lines 268-307): primary concept id/name from the first concept
when present; ingredient names from the FIRST drug's truthy ingredient list
only (projIngredients); drug-class names from the metadata's truthy
drug_classes entry (projDrugClasses); `drug_name` is
`proprietary or non_proprietary or "Unknown"`. Returns none exactly when a
drug-class entry carries no name (the pydantic validation failure the
per-match handler catches). -/
def generate_clinical_output_single (m : NDC_RxNorm_Match) : Option ClinicalOutput :=
  match projDrugClasses m.clinical_metadata with
  | none => none
  | some drug_classes =>
      some { ndc_code := m.ndc_product.product_ndc,
             drug_name := pyStrOr m.ndc_product.proprietary_name
               (pyStrOr m.ndc_product.non_proprietary_name "Unknown"),
             generic_name := m.ndc_product.non_proprietary_name,
             rxnorm_cui := m.rxnorm_concepts.head?.map (fun c : RxNormConcept => c.rxcui),
             rxnorm_name := m.rxnorm_concepts.head?.map (fun c : RxNormConcept => c.name),
             dosage_form := m.ndc_product.dosage_form_name,
             route := m.ndc_product.route_name,
             strength := strengthField m.ndc_product,
             ingredients := projIngredients m.rxnorm_drugs,
             drug_classes := drug_classes,
             match_confidence := m.match_confidence }

/-- FDA_NDC_RxNorm_Agent.generate_clinical_output (agent.py lines 264-309):
derive each match, skipping the ones whose derivation fails. -/
def generate_clinical_output (ms : List NDC_RxNorm_Match) : List ClinicalOutput :=
  ms.filterMap generate_clinical_output_single

/-- Whether every drug-class entry of a match's metadata carries a name —
the condition under which the projection cannot fail. -/
def classesNamed (m : NDC_RxNorm_Match) : Bool :=
  match m.clinical_metadata.drug_classes with
  | some cls => cls.all (fun cr => cr.class_name.isSome)
  | none => true

lemma optList_eq_some {α : Type} :
    ∀ (l : List (Option α)), (∀ x ∈ l, x.isSome) → ∃ ys, optList l = some ys
  | [], _ => ⟨[], rfl⟩
  | none :: t, h => absurd (h none (List.mem_cons_self none t)) (by simp)
  | some a :: t, h => by
      obtain ⟨ys, hys⟩ := optList_eq_some t (fun x hx => h x (List.mem_cons_of_mem _ hx))
      exact ⟨a :: ys, by simp [optList, hys]⟩

lemma optList_map_some {α : Type} :
    ∀ (l : List α), optList (l.map some) = some l
  | [] => rfl
  | a :: t => by simp [optList, optList_map_some t]

/-! ## Claim C9: the clinical projection -/

/-- Record used by the C9 counterexample. -/
def c9Product : NDCProduct :=
  { product_ndc := "00000000000", proprietary_name := none,
    non_proprietary_name := none, dosage_form_name := none, route_name := none,
    substance_name := none, strength_number := none, strength_unit := none }

/-- Match whose metadata holds a drug-class entry without a name — the
shape get_drug_classes produces when the service omits `name` on a
whitelisted classification concept. -/
def c9Match : NDC_RxNorm_Match :=
  { ndc_product := c9Product, rxnorm_concepts := [], rxnorm_drugs := [],
    match_confidence := 0, match_method := "direct_ndc_lookup",
    clinical_metadata :=
      { interactions := none,
        drug_classes := some [{ class_type := some "VA", class_name := none,
                                class_id := some "1" }] } }

/-- C9 (counterexample): the projection is NOT total: on a match whose
metadata has a drug-class entry with an absent name, the list comprehension
of agent.py line 286 yields None inside `drug_classes: List[str]`, pydantic
rejects it, the per-match handler catches and skips — the match is dropped
from the output instead of yielding an empty/none field. -/
theorem C9_counterexample :
    generate_clinical_output_single c9Match = none ∧
    generate_clinical_output [c9Match] = [] := by
  have h1 : generate_clinical_output_single c9Match = none := rfl
  exact ⟨h1, by simp [generate_clinical_output, h1]⟩

/-- C9 (amended): on every match whose drug-class entries all carry names
(in particular whenever the metadata's drug-class entry is absent), the
projection succeeds; it is deterministic and pure by construction; it
ignores every drug after the first; the emitted fields are exactly the
source's derivations — primary concept id and name from the first concept
when present and none otherwise, ingredient names the flattening of the
FIRST drug's ingredient list (projIngredients, pinned below to the actual
name list of a non-empty ingredient list), drug-class names the flattening
of the metadata's drug-class entry (projDrugClasses, pinned below to the
actual class-name list when every entry is named) — and absent concepts,
drugs or drug-class metadata yield none/empty fields. -/
theorem C9_amended_projection_fields :
    (∀ m : NDC_RxNorm_Match, classesNamed m = true →
      (generate_clinical_output_single m).isSome = true) ∧
    (∀ (m : NDC_RxNorm_Match) (d : RxNormDrug) (ds : List RxNormDrug),
      generate_clinical_output_single { m with rxnorm_drugs := d :: ds }
        = generate_clinical_output_single { m with rxnorm_drugs := [d] }) ∧
    (∀ (m : NDC_RxNorm_Match) (out : ClinicalOutput),
      generate_clinical_output_single m = some out →
      out.rxnorm_cui = m.rxnorm_concepts.head?.map (fun c : RxNormConcept => c.rxcui) ∧
      out.rxnorm_name = m.rxnorm_concepts.head?.map (fun c : RxNormConcept => c.name) ∧
      out.match_confidence = m.match_confidence ∧
      out.ingredients = projIngredients m.rxnorm_drugs ∧
      projDrugClasses m.clinical_metadata = some out.drug_classes ∧
      (m.rxnorm_concepts = [] → out.rxnorm_cui = none ∧ out.rxnorm_name = none) ∧
      (m.rxnorm_drugs = [] → out.ingredients = []) ∧
      (m.clinical_metadata.drug_classes = none → out.drug_classes = [])) ∧
    (∀ (d : RxNormDrug) (ds : List RxNormDrug) (ings : List RxNormIngredient),
      d.ingredients = some ings → ings ≠ [] →
      projIngredients (d :: ds) = ings.map (fun i : RxNormIngredient => i.name)) ∧
    (∀ (md : ClinicalMetadata) (cls : List DrugClassRecord) (names : List String),
      md.drug_classes = some cls →
      cls.map (fun cr : DrugClassRecord => cr.class_name) = names.map some →
      projDrugClasses md = some names) := by
  refine ⟨?_, ?_, ?_, ?_, ?_⟩
  · intro m h
    unfold generate_clinical_output_single
    cases hdc : projDrugClasses m.clinical_metadata with
    | some dcs => simp
    | none =>
        exfalso
        unfold projDrugClasses at hdc
        unfold classesNamed at h
        cases hm : m.clinical_metadata.drug_classes with
        | none => rw [hm] at hdc; simp at hdc
        | some cls =>
            rw [hm] at hdc h
            dsimp only at hdc h
            by_cases hnil : cls = []
            · rw [if_pos hnil] at hdc; simp at hdc
            · rw [if_neg hnil] at hdc
              have hall : ∀ x ∈ cls.map (fun cr : DrugClassRecord => cr.class_name),
                  x.isSome := by
                intro x hx
                obtain ⟨cr, hcr, rfl⟩ := List.mem_map.mp hx
                exact List.all_eq_true.mp h cr hcr
              obtain ⟨ys, hys⟩ := optList_eq_some _ hall
              rw [hys] at hdc
              simp at hdc
  · intro m d ds
    rfl
  · intro m out h
    unfold generate_clinical_output_single at h
    cases hdc : projDrugClasses m.clinical_metadata with
    | none => rw [hdc] at h; exact absurd h (by simp)
    | some dcs =>
        rw [hdc] at h
        dsimp only at h
        have hout := Option.some.inj h
        subst hout
        refine ⟨rfl, rfl, rfl, rfl, rfl, ?_, ?_, ?_⟩
        · intro hcon; simp [hcon]
        · intro hdr; simp [projIngredients, hdr]
        · intro hnone
          unfold projDrugClasses at hdc
          rw [hnone] at hdc
          exact (Option.some.inj hdc).symm
  · intro d ds ings hi hne
    unfold projIngredients
    dsimp only
    rw [hi]
    dsimp only
    rw [if_neg hne]
  · intro md cls names hmd hmap
    unfold projDrugClasses
    rw [hmd]
    dsimp only
    by_cases hnil : cls = []
    · subst hnil
      have hn : names = [] := by
        have := hmap.symm
        simpa using this
      subst hn
      simp
    · rw [if_neg hnil, hmap, optList_map_some]

/-- Fully populated record for the C9 witness. -/
def c9wProduct : NDCProduct :=
  { product_ndc := "00071015527", proprietary_name := some "Tylenol",
    non_proprietary_name := some "acetaminophen", dosage_form_name := some "TABLET",
    route_name := some "ORAL", substance_name := some "acetaminophen",
    strength_number := some "500", strength_unit := some "mg" }

/-- Fully populated match for the C9 witness: one drug with two named
ingredients and one named drug class. -/
def c9wMatch : NDC_RxNorm_Match :=
  { ndc_product := c9wProduct,
    rxnorm_concepts := [{ rxcui := "161", name := "acetaminophen", synonym := none,
                          tty := "IN", language := "ENG", suppress := "N",
                          umlscui := none }],
    rxnorm_drugs := [{ rxcui := "202433", name := "Tylenol", synonym := none,
                       tty := "BN", base_names := none,
                       ingredients := some
                         [{ rxcui := "161", name := "acetaminophen", base_names := none },
                          { rxcui := "1886", name := "caffeine", base_names := none }] }],
    match_confidence := 1,
    match_method := "direct_ndc_lookup",
    clinical_metadata :=
      { interactions := none,
        drug_classes := some [{ class_type := some "VA", class_name := some "CN103",
                                class_id := some "1" }] } }

/-- Witness for C9 at a fully populated match: the projection succeeds and
really flattens the first drug's ingredient names and the metadata's
drug-class names, with all other fields as derived. -/
theorem C9_witness :
    generate_clinical_output_single c9wMatch =
      some { ndc_code := "00071015527", drug_name := "Tylenol",
             generic_name := some "acetaminophen", rxnorm_cui := some "161",
             rxnorm_name := some "acetaminophen", dosage_form := some "TABLET",
             route := some "ORAL", strength := some "500 mg",
             ingredients := ["acetaminophen", "caffeine"],
             drug_classes := ["CN103"], match_confidence := 1 } := rfl
